import Mathlib

/-!
Verification of the orchestration pipeline of the Langgraph-Agentic-AI repository
(`app.py`).  The Python source is shallowly embedded: agent constructors become
Lean functions building configuration records, the parent `StateGraph` becomes a
record of node names and directed edges, the environment is a partial map from
variable names to string values, and `run_graph` is translated statement by
statement.  Properties of the graph topology, the agent configurations and the
final-text extraction are then proved about these definitions.
-/

/-! ## Tools and agents -/

/-- A tool an agent can be constructed with.  The research agent carries one
`TavilySearch(max_results=...)` instance; the calendar agent carries named
Google Calendar tools; the formatter agent carries none. -/
inductive Tool where
  | tavilySearch (max_results : Nat)
  | calendarTool (toolname : String)
deriving DecidableEq

/-- Name under which a tool is invocable by an agent. -/
def toolName : Tool → String
  | Tool.tavilySearch _ => "tavily_search"
  | Tool.calendarTool n => n

/-- Constructor `TavilySearch(max_results=k)` from `langchain_tavily`. -/
def TavilySearch (max_results : Nat) : Tool := Tool.tavilySearch max_results

/-- Configuration of a ReAct agent as produced by
`create_react_agent(model=..., tools=..., prompt=..., name=...)`. -/
structure ReactAgent where
  model : String
  tools : List Tool
  prompt : String
  name : String
deriving DecidableEq

/-- Embedding of `langgraph.prebuilt.create_react_agent`: records the model,
tool list, prompt and name the agent is constructed with. -/
def create_react_agent (model : String) (tools : List Tool) (prompt : String)
    (name : String) : ReactAgent :=
  ⟨model, tools, prompt, name⟩

/-- Prompt of the calendar work agent (`app.py`, `create_calendar_agent`). -/
def calendar_agent_prompt : String :=
  "You are a Calendar work agent.\n\n" ++
  "TASK:\n" ++
  "- Use the provided tools to create, search, update, move, and delete events.\n" ++
  "- ALWAYS set timezone to \x27Europe/Berlin\x27.\n" ++
  "- If date/time/calendar is missing, ask exactly one clarifying question via tool use if needed.\n\n" ++
  "OUTPUT CONTRACT (very important):\n" ++
  "- After completing the operation(s), respond ONLY with a single fenced JSON block labeled RESULT_JSON.\n" ++
  "- No other text. JSON must match the schema in the docstring."

/-- Embedding of `create_calendar_agent(tools)`. -/
def create_calendar_agent (tools : List Tool) : ReactAgent :=
  create_react_agent "openai:gpt-4o-mini" tools calendar_agent_prompt "calendar_agent"

/-- Prompt of the research work agent (`app.py`, `create_research_agent`). -/
def research_agent_prompt : String :=
  "You are a Research work agent.\n\n" ++
  "TASK:\n" ++
  "- Perform only research-related tasks using Tavily.\n\n" ++
  "OUTPUT CONTRACT (very important):\n" ++
  "- Respond ONLY with a single fenced JSON block labeled RESULT_JSON. No other text.\n" ++
  "- Normalize results to the schema in the docstring. If no hits, ok=false, data=[]."

/-- Embedding of `create_research_agent()`: model `openai:gpt-4o-mini`, a single
`TavilySearch(max_results=5)` tool, name `research_agent`. -/
def create_research_agent : ReactAgent :=
  create_react_agent "openai:gpt-4o-mini" [TavilySearch 5] research_agent_prompt "research_agent"

/-- Lines of the formatter agent prompt, one entry per adjacent Python string
literal of `create_formatter_agent` (`app.py`). -/
def formatter_prompt_lines : List String :=
  ["You are a Formatter agent.\n\n",
   "TASK:\n",
   "- Read the conversation so far, find the most recent fenced JSON block labeled RESULT_JSON,\n",
   "  parse it, and produce a clean, user-friendly Markdown summary of the results.\n",
   "- Do NOT call any tools.\n\n",
   "RENDERING RULES:\n",
   "- If RESULT_JSON.agent == \x27calendar\x27:\n",
   "   * op==\x27search\x27: bulleted list of events (summary, start, end, location, attendees).\n",
   "   * op in [\x27create\x27,\x27update\x27,\x27move\x27,\x27delete\x27]: concise confirmation with key fields.\n",
   "   * if ok==false: concise error or \x27no results\x27.\n",
   "- If RESULT_JSON.agent == \x27research\x27:\n",
   "   * ok==true: up to 5 items as: [Title](url) — snippet.\n",
   "   * ok==false: \x27no high-quality sources found\x27.\n",
   "- Fallback: if data is an array of objects, infer up to 6 columns and render a simple table.\n",
   "- Keep it concise. Use Markdown only. No JSON or code blocks in the final output."]

/-- Prompt of the formatter agent, the concatenation of its literal lines. -/
def formatter_prompt : String := String.join formatter_prompt_lines

/-- Embedding of `create_formatter_agent()`: model `openai:gpt-4o-mini`, an
empty tool list, name `formatter_agent`. -/
def create_formatter_agent : ReactAgent :=
  create_react_agent "openai:gpt-4o-mini" [] formatter_prompt "formatter_agent"

/-! ## Supervisor -/

/-- Prompt of the supervisor (`app.py`, `create_supervisor_runnable`). -/
def sup_prompt : String :=
  "You are a supervisor managing two WORK agents:\n" ++
  "- research_agent: research tasks via Tavily.\n" ++
  "- calendar_agent: calendar CRUD via Google Calendar tools.\n\n" ++
  "POLICY:\n" ++
  "1) Pick exactly one WORK agent for the user\x27s request.\n" ++
  "2) After the WORK agent finishes, do NOT write any additional message. End immediately.\n" ++
  "3) The WORK agent\x27s reply MUST be a RESULT_JSON block. Do not format it yourself."

/-- Configuration of the compiled supervisor subgraph as produced by
`create_supervisor(...).compile()` from `langgraph_supervisor`. -/
structure CompiledSupervisor where
  model : String
  agents : List ReactAgent
  prompt : String
  add_handoff_back_messages : Bool
  output_mode : String
deriving DecidableEq

/-- Embedding of `create_supervisor_runnable(research_agent, calendar_agent)`:
records the keyword arguments passed to `create_supervisor` in `app.py`. -/
def create_supervisor_runnable (research_agent calendar_agent : ReactAgent) :
    CompiledSupervisor :=
  ⟨"openai:gpt-4o-mini", [research_agent, calendar_agent], sup_prompt, true, "full_history"⟩

/-! ## Messages and graph results -/

/-- One block of a structured (list-valued) message content.  A block is either
a Python dict with string fields, or some non-dict value. -/
inductive ContentPart where
  | str (s : String)
  | dict (fields : List (String × String))
deriving DecidableEq

/-- Message content: either a plain string or a list of blocks, matching the
two cases `run_graph` distinguishes with `isinstance(content, list)`. -/
inductive Content where
  | text (s : String)
  | parts (ps : List ContentPart)
deriving DecidableEq

/-- A LangChain message as far as `run_graph` inspects it: a role and content. -/
structure Message where
  role : String
  content : Content
deriving DecidableEq

/-- Embedding of `HumanMessage(content=s)`. -/
def HumanMessage (s : String) : Message := ⟨"human", Content.text s⟩

/-- Result of `app.invoke(...)`: the state dict, holding the message list. -/
structure GraphResult where
  messages : List Message
deriving DecidableEq

/-! ## Parent graph -/

/-- A LangGraph `StateGraph` builder state: the added node names and added
directed edges, in insertion order. -/
structure StateGraph where
  nodes : List String
  edges : List (String × String)
deriving DecidableEq

/-- Embedding of `builder.add_node(name, runnable)` (the runnable payload is
irrelevant to the topology). -/
def StateGraph.add_node (g : StateGraph) (name : String) : StateGraph :=
  ⟨g.nodes ++ [name], g.edges⟩

/-- Embedding of `builder.add_edge(src, dst)`. -/
def StateGraph.add_edge (g : StateGraph) (src dst : String) : StateGraph :=
  ⟨g.nodes, g.edges ++ [(src, dst)]⟩

/-- LangGraph virtual entry node. -/
def START : String := "__start__"

/-- LangGraph virtual exit node. -/
def END : String := "__end__"

/-- Embedding of `build_parent_graph(supervisor_runnable, formatter_agent)`:
the exact sequence of `add_node` / `add_edge` calls of `app.py`. -/
def build_parent_graph (supervisor_runnable : CompiledSupervisor)
    (formatter_agent : ReactAgent) : StateGraph :=
  let builder : StateGraph := ⟨[], []⟩
  let builder := builder.add_node "supervisor"
  let builder := builder.add_node "formatter_agent"
  let builder := builder.add_edge START "supervisor"
  let builder := builder.add_edge "supervisor" "formatter_agent"
  let builder := builder.add_edge "formatter_agent" END
  builder

/-- Position of a node in the intended linear pipeline order; used to state
that every edge moves strictly forward (no loop-back). -/
def pipelinePos : String → Nat
  | "__start__" => 0
  | "supervisor" => 1
  | "formatter_agent" => 2
  | "__end__" => 3
  | _ => 4

/-! ## Secrets bootstrap -/

/-- A process environment: a partial map from variable names to values, the
view `os.getenv` gives.  `none` is an unset variable. -/
def Env : Type := String → Option String

/-- Python truthiness of an `os.getenv` result: `None` and the empty string
are falsy, every other string is truthy. -/
def pyTruthy : Option String → Bool
  | none => false
  | some s => s != ""

/-- Embedding of `bootstrap_secrets()` (`app.py`): after loading `.env` and
optionally changing directory (side effects outside the state modelled here),
it raises `RuntimeError` when `os.getenv` of either key is falsy, in order,
and otherwise returns normally. -/
def bootstrap_secrets (env : Env) : Except String Unit :=
  if pyTruthy (env "OPENAI_API_KEY") = false then
    Except.error "Missing OPENAI_API_KEY (set it in .env or container env)."
  else if pyTruthy (env "TAVILY_API_KEY") = false then
    Except.error "Missing TAVILY_API_KEY (set it in .env or container env)."
  else Except.ok ()

/-! ## run_graph -/

/-- Filter-and-project step of `run_graph`: for a block `p` of a list-valued
content, `"".join(p.get("text", "") for p in content if isinstance(p, dict)
and p.get("type") == "text")` keeps exactly the dict blocks whose
`"type"` field is `"text"` and takes their `"text"` field (default `""`). -/
def partTextIfTextBlock : ContentPart → Option String
  | ContentPart.str _ => none
  | ContentPart.dict d =>
      if d.lookup "type" == some "text" then some ((d.lookup "text").getD "") else none

/-- Embedding of `run_graph(app, user_text)` (`app.py`): invoke the compiled
graph once on the single new `HumanMessage`, then extract the final text. -/
def run_graph (app : List Message → GraphResult) (user_text : String) : String :=
  let result := app [HumanMessage user_text]
  let msgs := result.messages
  if h : msgs = [] then ""
  else
    let last := msgs.getLast h
    match last.content with
    | Content.parts ps => String.join (ps.filterMap partTextIfTextBlock)
    | Content.text s => s

/-! ## Spec-side formulations -/

/-- Whether a block is a dict block of type `"text"` (spec formulation). -/
def isTextBlock : ContentPart → Bool
  | ContentPart.str _ => false
  | ContentPart.dict d => d.lookup "type" == some "text"

/-- The `"text"` field of a block, empty when absent (spec formulation). -/
def textField : ContentPart → String
  | ContentPart.str _ => ""
  | ContentPart.dict d => (d.lookup "text").getD ""

/-- Concatenation of the `"text"` fields of exactly those blocks that are dicts
with type `"text"` (spec formulation of the extraction). -/
def textBlockConcat (ps : List ContentPart) : String :=
  String.join ((ps.filter isTextBlock).map textField)

/-- Content of the last message of a result, as plain text: the string itself
for string content, the text-block concatenation for list content, and the
empty string when there is no message at all (spec formulation). -/
def lastMessageText (msgs : List Message) : String :=
  match msgs.getLast? with
  | none => ""
  | some m =>
    match m.content with
    | Content.text s => s
    | Content.parts ps => textBlockConcat ps

/-- Semantics of the supervisor subgraph's `output_mode` option
(`langgraph_supervisor`): with `"full_history"` the subgraph hands its entire
internal message history of the turn to the parent graph; with the alternative
mode (`"last_message"`) only the final message survives. -/
def supervisor_output (sup : CompiledSupervisor) (history : List Message) :
    List Message :=
  if sup.output_mode = "full_history" then history
  else
    match history.getLast? with
    | none => []
    | some m => [m]

/-! ## Helper lemmas -/

theorem filterMap_partText_eq (ps : List ContentPart) :
    ps.filterMap partTextIfTextBlock = (ps.filter isTextBlock).map textField := by
  induction ps with
  | nil => rfl
  | cons p rest ih =>
    cases p with
    | str s =>
      simp [List.filterMap_cons, List.filter_cons, partTextIfTextBlock, isTextBlock, ih]
    | dict d =>
      by_cases h : (d.lookup "type" == some "text") = true
      · simp [List.filterMap_cons, List.filter_cons, partTextIfTextBlock, isTextBlock,
          textField, h, ih]
      · simp [List.filterMap_cons, List.filter_cons, partTextIfTextBlock, isTextBlock,
          h, ih]

theorem run_graph_eq_lastMessageText (app : List Message → GraphResult) (u : String) :
    run_graph app u = lastMessageText (app [HumanMessage u]).messages := by
  unfold run_graph lastMessageText
  by_cases h : (app [HumanMessage u]).messages = []
  · simp [h]
  · rw [dif_neg h, List.getLast?_eq_getLast_of_ne_nil h]
    cases hc : ((app [HumanMessage u]).messages.getLast h).content with
    | text s => simp [hc]
    | parts ps => simp [hc, filterMap_partText_eq, textBlockConcat]

/-! ## Claim theorems -/

/-- C1: the parent graph built by `build_parent_graph` is the fixed linear
pipeline START → supervisor → formatter_agent → END: exactly these three edges
in order, no node is the source of two edges (no branching), and every edge
moves strictly one step forward in the pipeline order (no loop-back). -/
theorem c1_parent_graph_linear_topology (sup : CompiledSupervisor) (fmt : ReactAgent) :
    (build_parent_graph sup fmt).nodes = ["supervisor", "formatter_agent"] ∧
    (build_parent_graph sup fmt).edges =
      [(START, "supervisor"), ("supervisor", "formatter_agent"), ("formatter_agent", END)] ∧
    ((build_parent_graph sup fmt).edges.map Prod.fst).Nodup ∧
    ((build_parent_graph sup fmt).edges.all
      fun e => pipelinePos e.2 == pipelinePos e.1 + 1) = true := by
  refine ⟨rfl, rfl, ?_, rfl⟩
  have h : (build_parent_graph sup fmt).edges.map Prod.fst =
      [START, "supervisor", "formatter_agent"] := rfl
  rw [h]
  decide

/-- C3: `run_graph app user_text` calls the compiled graph exactly once, with
the one new human message carrying `user_text` as its sole input, and returns
the content of the last message of the result as text. -/
theorem c3_run_graph_returns_last_content (app : List Message → GraphResult)
    (user_text : String) :
    run_graph app user_text = lastMessageText (app [HumanMessage user_text]).messages ∧
    HumanMessage user_text = ⟨"human", Content.text user_text⟩ :=
  ⟨run_graph_eq_lastMessageText app user_text, rfl⟩

/-- Environment in which both API keys are present (set) yet `bootstrap_secrets`
still raises: `OPENAI_API_KEY` is set to the empty string. -/
def envEmptyOpenAIKey : Env := fun k =>
  if k = "OPENAI_API_KEY" then some "" else
  if k = "TAVILY_API_KEY" then some "tvly-secret" else none

/-- C4 counterexample: with both environment variables present (not absent) but
`OPENAI_API_KEY` equal to the empty string, `bootstrap_secrets` raises all the
same, so absence of a key is not the only reason it raises. -/
theorem c4_counterexample_empty_key_raises :
    (envEmptyOpenAIKey "OPENAI_API_KEY").isSome = true ∧
    (envEmptyOpenAIKey "TAVILY_API_KEY").isSome = true ∧
    bootstrap_secrets envEmptyOpenAIKey =
      Except.error "Missing OPENAI_API_KEY (set it in .env or container env)." :=
  ⟨rfl, rfl, rfl⟩

/-- C4 (amended): `bootstrap_secrets` raises a `RuntimeError` exactly when
`OPENAI_API_KEY` or `TAVILY_API_KEY` is unset or set to the empty string, and
for no other reason. -/
theorem c4_raises_iff_key_unset_or_empty (env : Env) :
    (∃ msg, bootstrap_secrets env = Except.error msg) ↔
      (env "OPENAI_API_KEY" = none ∨ env "OPENAI_API_KEY" = some "" ∨
       env "TAVILY_API_KEY" = none ∨ env "TAVILY_API_KEY" = some "") := by
  unfold bootstrap_secrets
  cases h1 : env "OPENAI_API_KEY" with
  | none => simp [h1, pyTruthy]
  | some s1 =>
    cases h2 : env "TAVILY_API_KEY" with
    | none =>
      by_cases hs1 : s1 = "" <;> simp [h1, h2, pyTruthy, hs1]
    | some s2 =>
      by_cases hs1 : s1 = "" <;> by_cases hs2 : s2 = "" <;>
        simp [h1, h2, pyTruthy, hs1, hs2]

/-- Environment with no variables set at all. -/
def envAllUnset : Env := fun _ => none

/-- C4 witness: the amended characterization applied to the concrete empty
environment, where `bootstrap_secrets` indeed raises. -/
theorem c4_raises_iff_key_unset_or_empty_witness :
    ∃ msg, bootstrap_secrets envAllUnset = Except.error msg :=
  (c4_raises_iff_key_unset_or_empty envAllUnset).mpr (Or.inl rfl)

/-- C7: the research agent's web-search tool is a `TavilySearch` requesting at
most 5 results, and the formatter prompt's rendering rule for successful
research searches caps the rendered entries at the same 5. -/
theorem c7_research_tavily_max_results_five :
    create_research_agent.tools = [Tool.tavilySearch 5] ∧
    "   * ok==true: up to 5 items as: [Title](url) — snippet.\n" ∈ formatter_prompt_lines := by
  refine ⟨rfl, ?_⟩
  simp [formatter_prompt_lines]

/-- C8: the formatter agent is constructed with an empty tool list, so no tool
name resolves to an invocable tool in the formatting stage. -/
theorem c8_formatter_has_no_tools (n : String) :
    create_formatter_agent.tools = [] ∧
    create_formatter_agent.tools.find? (fun t => toolName t == n) = none :=
  ⟨rfl, rfl⟩

/-- C9: the supervisor is compiled with `output_mode="full_history"` and
`add_handoff_back_messages=True`, and under the `output_mode` semantics it
therefore hands the complete message history of the turn — hand-off messages
and the worker's envelope message included — on to the formatter stage. -/
theorem c9_supervisor_emits_full_history (research_agent calendar_agent : ReactAgent)
    (history : List Message) :
    (create_supervisor_runnable research_agent calendar_agent).output_mode = "full_history" ∧
    (create_supervisor_runnable research_agent calendar_agent).add_handoff_back_messages = true ∧
    supervisor_output (create_supervisor_runnable research_agent calendar_agent) history =
      history := by
  refine ⟨rfl, rfl, ?_⟩
  simp [supervisor_output, create_supervisor_runnable]

/-- C10: edge cases of `run_graph`: when the result holds no messages the
empty string is returned, and when the last message's content is a list of
blocks the return value is the concatenation of the `"text"` fields of exactly
the dict blocks whose `"type"` is `"text"`. -/
theorem c10_run_graph_edge_cases (app : List Message → GraphResult) (u : String)
    (m : Message) (ps : List ContentPart) :
    ((app [HumanMessage u]).messages = [] → run_graph app u = "") ∧
    ((app [HumanMessage u]).messages.getLast? = some m → m.content = Content.parts ps →
      run_graph app u = textBlockConcat ps) := by
  constructor
  · intro h
    rw [run_graph_eq_lastMessageText, h]
    rfl
  · intro hlast hc
    rw [run_graph_eq_lastMessageText]
    unfold lastMessageText
    rw [hlast]
    simp [hc]

/-- Concrete list content used to witness C10: two text blocks, one non-dict
block and one non-text dict block. -/
def demoParts : List ContentPart :=
  [ContentPart.dict [("type", "text"), ("text", "Hello ")],
   ContentPart.str "skipped",
   ContentPart.dict [("type", "image"), ("text", "nope")],
   ContentPart.dict [("type", "text"), ("text", "world")]]

/-- Message whose content is the concrete block list `demoParts`. -/
def demoMsg : Message := ⟨"ai", Content.parts demoParts⟩

/-- C10 witness: both edge cases evaluated on concrete graphs — an empty
result yields `""`, and a result ending in `demoMsg` yields exactly the
concatenated text blocks `"Hello world"`. -/
theorem c10_run_graph_edge_cases_witness :
    (GraphResult.mk []).messages = [] ∧
    run_graph (fun _ => GraphResult.mk []) "q" = "" ∧
    (GraphResult.mk [demoMsg]).messages.getLast? = some demoMsg ∧
    demoMsg.content = Content.parts demoParts ∧
    run_graph (fun _ => GraphResult.mk [demoMsg]) "q" = "Hello world" := by
  refine ⟨rfl, ?_, rfl, rfl, ?_⟩
  · exact (c10_run_graph_edge_cases (fun _ => GraphResult.mk []) "q" demoMsg demoParts).1 rfl
  · have h := (c10_run_graph_edge_cases (fun _ => GraphResult.mk [demoMsg]) "q"
      demoMsg demoParts).2 rfl rfl
    rw [h]
    rfl
